import Mathlib

/-!
Shallow embedding of `src/app/lambda_function.py`: an AWS Lambda REST API
handler with random fault injection.

Python values flowing through the handler are JSON-shaped, so the event and
all intermediate values are modelled by the `Json` type below.  The two
library calls the handler makes, `json.loads` and `json.dumps`, are modelled
by `loads` (a recursive-descent parser following CPython's `json` module
grammar, including the `NaN`/`Infinity`/`-Infinity` extensions) and `dumps`
(CPython's defaults: `ensure_ascii=True`, separators `", "` and `": "`,
insertion order preserved).  Randomness is passed explicitly: a `Draws`
record carries the value of `random.random()` (a rational in place of the
IEEE double) and the index picked by `random.choice(["400", "500"])`.
Python exceptions escaping the handler are modelled by `Except PyErr`.
-/

/-- JSON-shaped Python values.  `nan`, `inf`, `ninf` stand for the IEEE
specials `float("nan")`, `float("inf")`, `float("-inf")`, which CPython's
`json.loads` accepts via the literals `NaN`, `Infinity`, `-Infinity`.
Numbers are carried as rationals; objects are key-value lists in insertion
order (Python dicts). -/
inductive Json where
  | null : Json
  | bool : Bool → Json
  | num : Rat → Json
  | str : String → Json
  | arr : List Json → Json
  | obj : List (String × Json) → Json
  | nan : Json
  | inf : Json
  | ninf : Json

/-- Python exceptions that can escape `lambda_handler`. -/
inductive PyErr where
  | attributeError : PyErr
  | typeError : PyErr
  | jsonDecodeError : PyErr
deriving DecidableEq

/-- The event is a Python dict; look a key up (`d[k]` position, first match —
Python dict keys are unique). -/
def lookupKey (d : List (String × Json)) (k : String) : Option Json :=
  match d with
  | [] => none
  | (k0, v) :: rest => if k0 = k then some v else lookupKey rest k

/-- Python `d.get(k, dflt)`. -/
def dictGet (d : List (String × Json)) (k : String) (dflt : Json) : Json :=
  (lookupKey d k).getD dflt

/-- Inserting into a Python dict: an existing key keeps its position and gets
the new value; a new key is appended.  Used for duplicate keys met while
parsing an object. -/
def dictInsert (d : List (String × Json)) (k : String) (v : Json) : List (String × Json) :=
  match d with
  | [] => [(k, v)]
  | (k0, v0) :: rest => if k0 = k then (k0, v) :: rest else (k0, v0) :: dictInsert rest k v

/-- JSON whitespace (`' '`, `'\t'`, `'\n'`, `'\r'`), as skipped by
CPython's `json` scanner. -/
def skipWs : List Char → List Char
  | c :: cs => if c = ' ' ∨ c = '\t' ∨ c = '\n' ∨ c = '\r' then skipWs cs else c :: cs
  | [] => []

def digitVal (c : Char) : Option Nat :=
  if '0' ≤ c ∧ c ≤ '9' then some (c.toNat - '0'.toNat) else none

def hexVal (c : Char) : Option Nat :=
  if '0' ≤ c ∧ c ≤ '9' then some (c.toNat - '0'.toNat)
  else if 'a' ≤ c ∧ c ≤ 'f' then some (c.toNat - 'a'.toNat + 10)
  else if 'A' ≤ c ∧ c ≤ 'F' then some (c.toNat - 'A'.toNat + 10)
  else none

/-- Four hex digits of a `\uXXXX` escape. -/
def parseHex4 : List Char → Option (Nat × List Char)
  | a :: b :: c :: d :: rest => do
    let x ← hexVal a
    let y ← hexVal b
    let z ← hexVal c
    let w ← hexVal d
    some ((((x * 16 + y) * 16 + z) * 16 + w), rest)
  | _ => none

/-- The remainder of a JSON string after the opening quote: literal chars
(control chars below 0x20 rejected, as in strict mode), the short escapes,
and `\uXXXX` with surrogate-pair combination.  Fueled; each step consumes
input, so the caller's fuel (length + 2) is ample. -/
def parseStringRest : Nat → List Char → List Char → Option (String × List Char)
  | 0, _, _ => none
  | fuel + 1, acc, cs =>
    match cs with
    | [] => none
    | '"' :: rest => some (String.mk acc.reverse, rest)
    | '\\' :: esc =>
      match esc with
      | '"' :: rest => parseStringRest fuel ('"' :: acc) rest
      | '\\' :: rest => parseStringRest fuel ('\\' :: acc) rest
      | '/' :: rest => parseStringRest fuel ('/' :: acc) rest
      | 'b' :: rest => parseStringRest fuel ('\x08' :: acc) rest
      | 'f' :: rest => parseStringRest fuel ('\x0c' :: acc) rest
      | 'n' :: rest => parseStringRest fuel ('\n' :: acc) rest
      | 'r' :: rest => parseStringRest fuel ('\r' :: acc) rest
      | 't' :: rest => parseStringRest fuel ('\t' :: acc) rest
      | 'u' :: rest =>
        match parseHex4 rest with
        | none => none
        | some (n, rest2) =>
          if 0xd800 ≤ n ∧ n < 0xdc00 then
            match rest2 with
            | '\\' :: 'u' :: rest3 =>
              match parseHex4 rest3 with
              | some (m, rest4) =>
                if 0xdc00 ≤ m ∧ m < 0xe000 then
                  parseStringRest fuel
                    (Char.ofNat (0x10000 + (n - 0xd800) * 0x400 + (m - 0xdc00)) :: acc) rest4
                else parseStringRest fuel (Char.ofNat n :: acc) ('\\' :: 'u' :: rest3)
              | none => parseStringRest fuel (Char.ofNat n :: acc) ('\\' :: 'u' :: rest3)
            | _ => parseStringRest fuel (Char.ofNat n :: acc) rest2
          else parseStringRest fuel (Char.ofNat n :: acc) rest2
      | _ => none
    | c :: rest => if c.toNat < 0x20 then none else parseStringRest fuel (c :: acc) rest

/-- Longest prefix of decimal digits. -/
def takeDigits : List Char → List Nat × List Char
  | [] => ([], [])
  | c :: cs =>
    match digitVal c with
    | some d =>
      let (ds, rest) := takeDigits cs
      (d :: ds, rest)
    | none => ([], c :: cs)

def digitsToNat (ds : List Nat) : Nat := ds.foldl (fun a d => a * 10 + d) 0

/-- Fraction and exponent of the number grammar
`(0|[1-9][0-9]*)(\.[0-9]+)?([eE][+-]?[0-9]+)?`: a `.` or `e` not followed by
a digit is not part of the number (the regex match stops before it). -/
def parseNumTail (neg : Bool) (ip : Nat) (cs : List Char) : Rat × List Char :=
  let (fracDs, cs2) :=
    match cs with
    | '.' :: rest =>
      match takeDigits rest with
      | ([], _) => (([] : List Nat), cs)
      | (ds, rest2) => (ds, rest2)
    | _ => (([] : List Nat), cs)
  let (expNeg, expDs, cs3) :=
    match cs2 with
    | 'e' :: '+' :: rest =>
      match takeDigits rest with
      | ([], _) => (false, ([] : List Nat), cs2)
      | (ds, r) => (false, ds, r)
    | 'e' :: '-' :: rest =>
      match takeDigits rest with
      | ([], _) => (false, ([] : List Nat), cs2)
      | (ds, r) => (true, ds, r)
    | 'e' :: rest =>
      match takeDigits rest with
      | ([], _) => (false, ([] : List Nat), cs2)
      | (ds, r) => (false, ds, r)
    | 'E' :: '+' :: rest =>
      match takeDigits rest with
      | ([], _) => (false, ([] : List Nat), cs2)
      | (ds, r) => (false, ds, r)
    | 'E' :: '-' :: rest =>
      match takeDigits rest with
      | ([], _) => (false, ([] : List Nat), cs2)
      | (ds, r) => (true, ds, r)
    | 'E' :: rest =>
      match takeDigits rest with
      | ([], _) => (false, ([] : List Nat), cs2)
      | (ds, r) => (false, ds, r)
    | _ => (false, ([] : List Nat), cs2)
  let mant : Rat := (ip : Rat) + (digitsToNat fracDs : Rat) / ((10 : Rat) ^ fracDs.length)
  let scaled : Rat :=
    if expNeg then mant / (10 : Rat) ^ digitsToNat expDs
    else mant * (10 : Rat) ^ digitsToNat expDs
  (if neg then -scaled else scaled, cs3)

/-- A JSON number: optional `-`, then `0` or a nonzero digit followed by
digits (no leading zeros), then `parseNumTail`. -/
def parseNumber (cs : List Char) : Option (Rat × List Char) :=
  let (neg, cs1) :=
    match cs with
    | '-' :: rest => (true, rest)
    | _ => (false, cs)
  match cs1 with
  | c :: rest =>
    if c = '0' then some (parseNumTail neg 0 rest)
    else
      match digitVal c with
      | some d =>
        let (ds, rest2) := takeDigits rest
        some (parseNumTail neg (digitsToNat (d :: ds)) rest2)
      | none => none
  | [] => none

mutual

/-- One JSON value, starting at the given character (leading whitespace
already skipped by the caller).  Fuel only bounds recursion depth; two units
of fuel per consumed character is ample (see `loads`). -/
def parseValue : Nat → List Char → Option (Json × List Char)
  | 0, _ => none
  | _ + 1, [] => none
  | fuel + 1, c :: cs =>
    if c = '\x7b' then
      match skipWs cs with
      | '\x7d' :: rest => some (Json.obj [], rest)
      | cs1 => parseMembers fuel [] cs1
    else if c = '[' then
      match skipWs cs with
      | ']' :: rest => some (Json.arr [], rest)
      | cs1 => parseElements fuel [] cs1
    else if c = '"' then
      match parseStringRest (cs.length + 2) [] cs with
      | some (s, rest) => some (Json.str s, rest)
      | none => none
    else if c = 't' then
      match cs with
      | 'r' :: 'u' :: 'e' :: rest => some (Json.bool true, rest)
      | _ => none
    else if c = 'f' then
      match cs with
      | 'a' :: 'l' :: 's' :: 'e' :: rest => some (Json.bool false, rest)
      | _ => none
    else if c = 'n' then
      match cs with
      | 'u' :: 'l' :: 'l' :: rest => some (Json.null, rest)
      | _ => none
    else if c = 'N' then
      match cs with
      | 'a' :: 'N' :: rest => some (Json.nan, rest)
      | _ => none
    else if c = 'I' then
      match cs with
      | 'n' :: 'f' :: 'i' :: 'n' :: 'i' :: 't' :: 'y' :: rest => some (Json.inf, rest)
      | _ => none
    else if c = '-' then
      match cs with
      | 'I' :: 'n' :: 'f' :: 'i' :: 'n' :: 'i' :: 't' :: 'y' :: rest => some (Json.ninf, rest)
      | _ =>
        match parseNumber (c :: cs) with
        | some (q, rest) => some (Json.num q, rest)
        | none => none
    else
      match parseNumber (c :: cs) with
      | some (q, rest) => some (Json.num q, rest)
      | none => none

/-- Members of a non-empty object, positioned at a property name. -/
def parseMembers : Nat → List (String × Json) → List Char → Option (Json × List Char)
  | 0, _, _ => none
  | fuel + 1, acc, cs =>
    match cs with
    | '"' :: cs1 =>
      match parseStringRest (cs1.length + 2) [] cs1 with
      | none => none
      | some (k, cs2) =>
        match skipWs cs2 with
        | ':' :: cs3 =>
          match parseValue fuel (skipWs cs3) with
          | none => none
          | some (v, cs4) =>
            match skipWs cs4 with
            | ',' :: cs5 => parseMembers fuel (dictInsert acc k v) (skipWs cs5)
            | '\x7d' :: cs5 => some (Json.obj (dictInsert acc k v), cs5)
            | _ => none
        | _ => none
    | _ => none

/-- Elements of a non-empty array, positioned at a value. -/
def parseElements : Nat → List Json → List Char → Option (Json × List Char)
  | 0, _, _ => none
  | fuel + 1, acc, cs =>
    match parseValue fuel cs with
    | none => none
    | some (v, cs1) =>
      match skipWs cs1 with
      | ',' :: cs2 => parseElements fuel (acc ++ [v]) (skipWs cs2)
      | ']' :: cs2 => some (Json.arr (acc ++ [v]), cs2)
      | _ => none

end

/-- Python `json.loads` on a `str`: skip whitespace, one value, skip
whitespace, and reject trailing data ("Extra data").  `none` is a
`json.JSONDecodeError`. -/
def loads (s : String) : Option Json :=
  match parseValue (2 * s.length + 8) (skipWs s.data) with
  | some (v, rest) => if skipWs rest = [] then some v else none
  | none => none

/-- `json.loads` applied to an arbitrary Python value, as the handler does:
a non-`str` argument is a `TypeError`, an unparsable `str` a
`json.JSONDecodeError`. -/
def loadsValue (v : Json) : Except PyErr Json :=
  match v with
  | Json.str s =>
    match loads s with
    | some j => Except.ok j
    | none => Except.error PyErr.jsonDecodeError
  | _ => Except.error PyErr.typeError

def hexDigitChar (n : Nat) : Char :=
  if n < 10 then Char.ofNat ('0'.toNat + n) else Char.ofNat ('a'.toNat + n - 10)

/-- Four lowercase hex digits, as CPython's `\uXXXX` output. -/
def hex4 (n : Nat) : String :=
  String.mk [hexDigitChar (n / 4096 % 16), hexDigitChar (n / 256 % 16),
    hexDigitChar (n / 16 % 16), hexDigitChar (n % 16)]

/-- `json.dumps` escaping with `ensure_ascii=True`: `"` and `\` and the
short control escapes, printable ASCII kept literal, everything else as
`\uXXXX` (surrogate pairs above 0xFFFF). -/
def escapeChar (c : Char) : String :=
  if c = '"' then "\\\""
  else if c = '\\' then "\\\\"
  else if c = '\n' then "\\n"
  else if c = '\r' then "\\r"
  else if c = '\t' then "\\t"
  else if c.toNat = 8 then "\\b"
  else if c.toNat = 12 then "\\f"
  else if 0x20 ≤ c.toNat ∧ c.toNat ≤ 0x7e then String.singleton c
  else if c.toNat < 0x10000 then "\\u" ++ hex4 c.toNat
  else
    "\\u" ++ hex4 (0xd800 + (c.toNat - 0x10000) / 0x400) ++
      "\\u" ++ hex4 (0xdc00 + (c.toNat - 0x10000) % 0x400)

def dumpsStr (s : String) : String :=
  "\"" ++ String.join (s.data.map escapeChar) ++ "\""

/-- Serialization of a number.  Integers print as Python ints; the repr of a
non-integral float is not modelled further (no value in this development is
a non-integral number), so a plain rational rendering stands in for it. -/
def dumpNum (q : Rat) : String :=
  if q.den = 1 then toString q.num else toString q.num ++ "/" ++ toString q.den

mutual

/-- Python `json.dumps` with its defaults: item separator `", "`, key
separator `": "`, keys in insertion order, `ensure_ascii=True`. -/
def dumps : Json → String
  | Json.null => "null"
  | Json.bool true => "true"
  | Json.bool false => "false"
  | Json.num q => dumpNum q
  | Json.str s => dumpsStr s
  | Json.arr xs => "[" ++ dumpsElements xs ++ "]"
  | Json.obj ms => "\x7b" ++ dumpsMembers ms ++ "\x7d"
  | Json.nan => "NaN"
  | Json.inf => "Infinity"
  | Json.ninf => "-Infinity"

def dumpsElements : List Json → String
  | [] => ""
  | [x] => dumps x
  | x :: y :: xs => dumps x ++ ", " ++ dumpsElements (y :: xs)

def dumpsMembers : List (String × Json) → String
  | [] => ""
  | [(k, v)] => dumpsStr k ++ ": " ++ dumps v
  | (k, v) :: m :: ms => dumpsStr k ++ ": " ++ dumps v ++ ", " ++ dumpsMembers (m :: ms)

end

/-- `FAILURE_PROBABILITY = 0.001`. -/
def FAILURE_PROBABILITY : Rat := mkRat 1 1000

/-- `should_fail_request()`, with the `random.random()` draw `r ∈ [0, 1)`
made explicit: `return random.random() < FAILURE_PROBABILITY`. -/
def should_fail_request (r : Rat) : Bool :=
  r < FAILURE_PROBABILITY

/-- `{statusCode: ..., body: ...}`, the API-Gateway-shaped return value. -/
structure Response where
  statusCode : Nat
  body : String
deriving DecidableEq

/-- `generate_error_response()`, with the `random.choice(["400", "500"])`
index made explicit. -/
def generate_error_response (choice : Fin 2) : Response :=
  let error_type := ["400", "500"].get choice
  if error_type = "400" then
    { statusCode := 400
      body := dumps (Json.obj [("error", Json.str "BadRequest"),
        ("message", Json.str "Simulated client error")]) }
  else
    { statusCode := 500
      body := dumps (Json.obj [("error", Json.str "InternalServerError"),
        ("message", Json.str "Simulated server error")]) }

/-- The random draws one invocation consumes: the `random.random()` value
tested by `should_fail_request`, and the `random.choice` index used by
`generate_error_response` when the first draw triggers. -/
structure Draws where
  r : Rat
  choice : Fin 2

/-- `event.get("requestContext", {}).get("http", {}).get("method")`.
A present `requestContext` or `http` value that is not a dict has no `.get`
attribute (`AttributeError`); a missing `method` yields Python `None`,
modelled as `Json.null`. -/
def getHttpMethod (event : List (String × Json)) : Except PyErr Json :=
  match dictGet event "requestContext" (Json.obj []) with
  | Json.obj rc =>
    match dictGet rc "http" (Json.obj []) with
    | Json.obj http => Except.ok (dictGet http "method" Json.null)
    | _ => Except.error PyErr.attributeError
  | _ => Except.error PyErr.attributeError

/-- Python `==` between a JSON-shaped value and a string literal: true only
for an equal `str`. -/
def jsonEqStr (v : Json) (s : String) : Bool :=
  match v with
  | Json.str t => t == s
  | _ => false

/-- `lambda_handler(event, context)`.  The unused `context` argument is
dropped; the random draws are explicit; the event is the gateway's dict. -/
def lambda_handler (draws : Draws) (event : List (String × Json)) : Except PyErr Response :=
  if should_fail_request draws.r then
    Except.ok (generate_error_response draws.choice)
  else
    match getHttpMethod event with
    | Except.error e => Except.error e
    | Except.ok http_method =>
      if jsonEqStr http_method "GET" then
        Except.ok
          { statusCode := 200
            body := dumps (Json.obj [("message", Json.str "GET request successful"),
              ("items", Json.arr [Json.str "item1", Json.str "item2"])]) }
      else if jsonEqStr http_method "POST" then
        match loadsValue (dictGet event "body" (Json.str "\x7b\x7d")) with
        | Except.error e => Except.error e
        | Except.ok body =>
          Except.ok
            { statusCode := 201
              body := dumps (Json.obj [("message", Json.str "POST request successful"),
                ("received", body)]) }
      else
        Except.ok
          { statusCode := 405
            body := dumps (Json.obj [("error", Json.str "MethodNotAllowed"),
              ("message", Json.str "Unsupported HTTP method")]) }

/-! ## Sample inputs used by the concrete witnesses -/

/-- A draw that does not trigger fault injection (`0.5 ≥ 0.001`). -/
def calmDraw : Draws := ⟨mkRat 1 2, 0⟩

/-- An event whose method is GET. -/
def getEvent : List (String × Json) :=
  [("requestContext", Json.obj [("http", Json.obj [("method", Json.str "GET")])])]

/-- The routing context of a POST event. -/
def postCtx : String × Json :=
  ("requestContext", Json.obj [("http", Json.obj [("method", Json.str "POST")])])

/-- A POST event carrying the JSON object body from the spec's property
list. -/
def postEventKV : List (String × Json) :=
  [postCtx, ("body", Json.str "\x7b\"k\": \"v\"\x7d")]

/-- A POST event with no "body" key at all. -/
def postEventNoBody : List (String × Json) := [postCtx]

/-- A POST event whose body is present but not valid JSON text. -/
def postEventBadBody : List (String × Json) :=
  [postCtx, ("body", Json.str "not json")]

/-- A POST event whose "body" key is present with value `None`. -/
def postEventNullBody : List (String × Json) :=
  [postCtx, ("body", Json.null)]

/-- A DELETE event. -/
def deleteEvent : List (String × Json) :=
  [("requestContext", Json.obj [("http", Json.obj [("method", Json.str "DELETE")])])]

/-- The concrete scenario event of the spec (§8): POST with body
`{"name":"widget"}`. -/
def widgetEvent : List (String × Json) :=
  [postCtx, ("body", Json.str "\x7b\"name\":\"widget\"\x7d")]

/-! ## Case lemmas for `lambda_handler`, shared by the claim theorems -/

/-- Triggered fault injection returns the synthetic response at once. -/
theorem handler_fault (d : Draws) (e : List (String × Json))
    (h : should_fail_request d.r = true) :
    lambda_handler d e = Except.ok (generate_error_response d.choice) := by
  unfold lambda_handler
  rw [h]
  rfl

/-- GET branch. -/
theorem handler_get (d : Draws) (e : List (String × Json))
    (hf : should_fail_request d.r = false)
    (hm : getHttpMethod e = Except.ok (Json.str "GET")) :
    lambda_handler d e = Except.ok
      { statusCode := 200
        body := "\x7b\"message\": \"GET request successful\", \"items\": [\"item1\", \"item2\"]\x7d" } := by
  unfold lambda_handler
  rw [hf, hm]
  rfl

/-- POST branch when `json.loads` succeeds. -/
theorem handler_post_ok (d : Draws) (e : List (String × Json)) (j : Json)
    (hf : should_fail_request d.r = false)
    (hm : getHttpMethod e = Except.ok (Json.str "POST"))
    (hb : loadsValue (dictGet e "body" (Json.str "\x7b\x7d")) = Except.ok j) :
    lambda_handler d e = Except.ok
      { statusCode := 201
        body := dumps (Json.obj [("message", Json.str "POST request successful"),
          ("received", j)]) } := by
  unfold lambda_handler
  rw [hf, hm, hb]
  rfl

/-- POST branch when `json.loads` raises: the exception propagates. -/
theorem handler_post_err (d : Draws) (e : List (String × Json)) (err : PyErr)
    (hf : should_fail_request d.r = false)
    (hm : getHttpMethod e = Except.ok (Json.str "POST"))
    (hb : loadsValue (dictGet e "body" (Json.str "\x7b\x7d")) = Except.error err) :
    lambda_handler d e = Except.error err := by
  unfold lambda_handler
  rw [hf, hm, hb]
  rfl

/-- Fall-through branch for any method that is neither GET nor POST. -/
theorem handler_other (d : Draws) (e : List (String × Json)) (m : Json)
    (hf : should_fail_request d.r = false)
    (hm : getHttpMethod e = Except.ok m)
    (hg : jsonEqStr m "GET" = false)
    (hp : jsonEqStr m "POST" = false) :
    lambda_handler d e = Except.ok
      { statusCode := 405
        body := "\x7b\"error\": \"MethodNotAllowed\", \"message\": \"Unsupported HTTP method\"\x7d" } := by
  unfold lambda_handler
  rw [hf, hm]
  show (if jsonEqStr m "GET" = true then _ else _) = _
  rw [hg, hp]
  rfl

/-- `json.loads` on a `str` value that parses. -/
theorem loadsValue_str (s : String) (j : Json) (h : loads s = some j) :
    loadsValue (Json.str s) = Except.ok j := by
  simp only [loadsValue, h]

/-- `json.loads` on a `str` value that does not parse raises
`json.JSONDecodeError`. -/
theorem loadsValue_str_err (s : String) (h : loads s = none) :
    loadsValue (Json.str s) = Except.error PyErr.jsonDecodeError := by
  simp only [loadsValue, h]

def Json.isString : Json → Bool
  | Json.str _ => true
  | _ => false

/-- `json.loads` on a non-`str` value raises `TypeError`. -/
theorem loadsValue_typeError (v : Json) (hv : v.isString = false) :
    loadsValue v = Except.error PyErr.typeError := by
  cases v <;> first
    | rfl
    | exact absurd hv (by simp [Json.isString])

/-- A draw that does trigger fault injection (`0 < 0.001`), picking the
second of the two synthetic outcomes. -/
def faultDraw : Draws := ⟨0, 1⟩

/-! ## The claims -/

/-- C1: for every request whose method is GET, when fault injection does not
trigger, the handler returns status 200 and a body holding the fixed message
string and the item list exactly equal to `["item1", "item2"]`. -/
theorem get_returns_200_with_fixed_items (d : Draws) (e : List (String × Json))
    (hf : should_fail_request d.r = false)
    (hm : getHttpMethod e = Except.ok (Json.str "GET")) :
    lambda_handler d e = Except.ok
      { statusCode := 200
        body := "\x7b\"message\": \"GET request successful\", \"items\": [\"item1\", \"item2\"]\x7d" } :=
  handler_get d e hf hm

/-- Witness for C1: the concrete GET event with a non-triggering draw. -/
theorem get_returns_200_with_fixed_items_witness :
    should_fail_request calmDraw.r = false ∧
    getHttpMethod getEvent = Except.ok (Json.str "GET") ∧
    lambda_handler calmDraw getEvent = Except.ok
      { statusCode := 200
        body := "\x7b\"message\": \"GET request successful\", \"items\": [\"item1\", \"item2\"]\x7d" } :=
  ⟨by decide, by rfl, get_returns_200_with_fixed_items calmDraw getEvent (by decide) (by rfl)⟩

/-- C2: for every POST request whose body is a string parsing to a JSON
object, when fault injection does not trigger, the handler returns status
201 and the `received` field of the response body is exactly the parsed
object (echo round-trip). -/
theorem post_echoes_parsed_object (d : Draws) (e : List (String × Json))
    (s : String) (ms : List (String × Json))
    (hf : should_fail_request d.r = false)
    (hm : getHttpMethod e = Except.ok (Json.str "POST"))
    (hb : dictGet e "body" (Json.str "\x7b\x7d") = Json.str s)
    (hj : loads s = some (Json.obj ms)) :
    lambda_handler d e = Except.ok
      { statusCode := 201
        body := dumps (Json.obj [("message", Json.str "POST request successful"),
          ("received", Json.obj ms)]) } := by
  apply handler_post_ok d e (Json.obj ms) hf hm
  rw [hb]
  exact loadsValue_str s (Json.obj ms) hj

/-- Witness for C2: the body `{"k": "v"}` comes back under `received`. -/
theorem post_echoes_parsed_object_witness :
    should_fail_request calmDraw.r = false ∧
    getHttpMethod postEventKV = Except.ok (Json.str "POST") ∧
    dictGet postEventKV "body" (Json.str "\x7b\x7d") = Json.str "\x7b\"k\": \"v\"\x7d" ∧
    loads "\x7b\"k\": \"v\"\x7d" = some (Json.obj [("k", Json.str "v")]) ∧
    lambda_handler calmDraw postEventKV = Except.ok
      { statusCode := 201
        body := dumps (Json.obj [("message", Json.str "POST request successful"),
          ("received", Json.obj [("k", Json.str "v")])]) } :=
  ⟨by decide, by rfl, by rfl, by rfl,
    post_echoes_parsed_object calmDraw postEventKV "\x7b\"k\": \"v\"\x7d"
      [("k", Json.str "v")] (by decide) (by rfl) (by rfl) (by rfl)⟩

/-- C3: for every request whose method is neither GET nor POST (a missing
method included), when fault injection does not trigger, the handler returns
status 405 with an error payload carrying `error` and `message` fields that
call the method unsupported. -/
theorem unsupported_method_returns_405 (d : Draws) (e : List (String × Json)) (m : Json)
    (hf : should_fail_request d.r = false)
    (hm : getHttpMethod e = Except.ok m)
    (hg : jsonEqStr m "GET" = false)
    (hp : jsonEqStr m "POST" = false) :
    lambda_handler d e = Except.ok
      { statusCode := 405
        body := "\x7b\"error\": \"MethodNotAllowed\", \"message\": \"Unsupported HTTP method\"\x7d" } :=
  handler_other d e m hf hm hg hp

/-- Witness for C3: a DELETE event, and the empty event whose method is
missing altogether, both get the 405 response. -/
theorem unsupported_method_returns_405_witness :
    should_fail_request calmDraw.r = false ∧
    getHttpMethod deleteEvent = Except.ok (Json.str "DELETE") ∧
    getHttpMethod [] = Except.ok Json.null ∧
    lambda_handler calmDraw deleteEvent = Except.ok
      { statusCode := 405
        body := "\x7b\"error\": \"MethodNotAllowed\", \"message\": \"Unsupported HTTP method\"\x7d" } ∧
    lambda_handler calmDraw [] = Except.ok
      { statusCode := 405
        body := "\x7b\"error\": \"MethodNotAllowed\", \"message\": \"Unsupported HTTP method\"\x7d" } :=
  ⟨by decide, by rfl, by rfl,
    unsupported_method_returns_405 calmDraw deleteEvent (Json.str "DELETE")
      (by decide) (by rfl) (by rfl) (by rfl),
    unsupported_method_returns_405 calmDraw [] Json.null
      (by decide) (by rfl) (by rfl) (by rfl)⟩

/-- C4: whenever the first draw is below 0.001 the handler short-circuits to
the synthetic error response built from the second draw alone, so the router
is never reached and the outcome is the same for any two events. -/
theorem fault_trigger_short_circuits (d : Draws) (e1 e2 : List (String × Json))
    (h : d.r < FAILURE_PROBABILITY) :
    lambda_handler d e1 = Except.ok (generate_error_response d.choice) ∧
    lambda_handler d e1 = lambda_handler d e2 := by
  have hb : should_fail_request d.r = true := by
    unfold should_fail_request
    exact decide_eq_true h
  exact ⟨handler_fault d e1 hb, by rw [handler_fault d e1 hb, handler_fault d e2 hb]⟩

/-- Witness for C4: a triggering draw short-circuits identically on a GET
event and on a DELETE event. -/
theorem fault_trigger_short_circuits_witness :
    faultDraw.r < FAILURE_PROBABILITY ∧
    (lambda_handler faultDraw getEvent = Except.ok (generate_error_response faultDraw.choice) ∧
     lambda_handler faultDraw getEvent = lambda_handler faultDraw deleteEvent) :=
  ⟨by decide, fault_trigger_short_circuits faultDraw getEvent deleteEvent (by decide)⟩

/-- C5: when fault injection triggers, the response is exactly one of the
two synthetic outcomes: 400 with the `BadRequest` payload or 500 with the
`InternalServerError` payload. -/
theorem fault_response_is_400_or_500 (d : Draws) (e : List (String × Json))
    (h : d.r < FAILURE_PROBABILITY) :
    lambda_handler d e = Except.ok
      { statusCode := 400
        body := "\x7b\"error\": \"BadRequest\", \"message\": \"Simulated client error\"\x7d" } ∨
    lambda_handler d e = Except.ok
      { statusCode := 500
        body := "\x7b\"error\": \"InternalServerError\", \"message\": \"Simulated server error\"\x7d" } := by
  have hb : should_fail_request d.r = true := by
    unfold should_fail_request
    exact decide_eq_true h
  rw [handler_fault d e hb]
  rcases d with ⟨r, c⟩
  fin_cases c
  · left
    rfl
  · right
    rfl

/-- Witness for C5: the triggering draw with second choice yields the 500
outcome on the GET event. -/
theorem fault_response_is_400_or_500_witness :
    faultDraw.r < FAILURE_PROBABILITY ∧
    (lambda_handler faultDraw getEvent = Except.ok
      { statusCode := 400
        body := "\x7b\"error\": \"BadRequest\", \"message\": \"Simulated client error\"\x7d" } ∨
     lambda_handler faultDraw getEvent = Except.ok
      { statusCode := 500
        body := "\x7b\"error\": \"InternalServerError\", \"message\": \"Simulated server error\"\x7d" }) :=
  ⟨by decide, fault_response_is_400_or_500 faultDraw getEvent (by decide)⟩

/-- C6: for every POST request whose event has no "body" key at all, when
fault injection does not trigger, the handler returns status 201 with
`received` equal to the empty object. -/
theorem post_absent_body_defaults_to_empty (d : Draws) (e : List (String × Json))
    (hf : should_fail_request d.r = false)
    (hm : getHttpMethod e = Except.ok (Json.str "POST"))
    (hb : lookupKey e "body" = none) :
    lambda_handler d e = Except.ok
      { statusCode := 201
        body := "\x7b\"message\": \"POST request successful\", \"received\": \x7b\x7d\x7d" } := by
  have hd : loadsValue (dictGet e "body" (Json.str "\x7b\x7d")) = Except.ok (Json.obj []) := by
    unfold dictGet
    rw [hb]
    rfl
  exact handler_post_ok d e (Json.obj []) hf hm hd

/-- Witness for C6: the POST event with no body key. -/
theorem post_absent_body_defaults_to_empty_witness :
    should_fail_request calmDraw.r = false ∧
    getHttpMethod postEventNoBody = Except.ok (Json.str "POST") ∧
    lookupKey postEventNoBody "body" = none ∧
    lambda_handler calmDraw postEventNoBody = Except.ok
      { statusCode := 201
        body := "\x7b\"message\": \"POST request successful\", \"received\": \x7b\x7d\x7d" } :=
  ⟨by decide, by rfl, by rfl,
    post_absent_body_defaults_to_empty calmDraw postEventNoBody (by decide) (by rfl) (by rfl)⟩

/-- C7: for every POST request whose body is a string that is not valid JSON
text, when fault injection does not trigger, the parse error propagates as
an unhandled `json.JSONDecodeError` instead of being swallowed into a
success or default response. -/
theorem post_malformed_body_fails_loudly (d : Draws) (e : List (String × Json)) (s : String)
    (hf : should_fail_request d.r = false)
    (hm : getHttpMethod e = Except.ok (Json.str "POST"))
    (hb : dictGet e "body" (Json.str "\x7b\x7d") = Json.str s)
    (hj : loads s = none) :
    lambda_handler d e = Except.error PyErr.jsonDecodeError := by
  apply handler_post_err d e PyErr.jsonDecodeError hf hm
  rw [hb]
  exact loadsValue_str_err s hj

/-- Witness for C7: the POST event whose body is the unparsable text
"not json". -/
theorem post_malformed_body_fails_loudly_witness :
    should_fail_request calmDraw.r = false ∧
    getHttpMethod postEventBadBody = Except.ok (Json.str "POST") ∧
    dictGet postEventBadBody "body" (Json.str "\x7b\x7d") = Json.str "not json" ∧
    loads "not json" = none ∧
    lambda_handler calmDraw postEventBadBody = Except.error PyErr.jsonDecodeError :=
  ⟨by decide, by rfl, by rfl, by rfl,
    post_malformed_body_fails_loudly calmDraw postEventBadBody "not json"
      (by decide) (by rfl) (by rfl) (by rfl)⟩

/-- What the serializer actually produces for the spec's concrete POST
scenario: `json.dumps` defaults put a space after each colon and comma. -/
def actualWidgetBody : String :=
  "\x7b\"message\": \"POST request successful\", \"received\": \x7b\"name\": \"widget\"\x7d\x7d"

/-- The byte sequence the spec's concrete scenario claims, with no spaces
after colons and commas. -/
def claimedWidgetBody : String :=
  "\x7b\"message\":\"POST request successful\",\"received\":\x7b\"name\":\"widget\"\x7d\x7d"

/-- Counterexample to C8: on the spec's concrete event, with a
non-triggering draw, the handler's body is `actualWidgetBody`, which is not
byte-for-byte the spec's `claimedWidgetBody` (the real output has a space
after every colon and comma separator). -/
theorem widget_scenario_not_byte_exact :
    should_fail_request calmDraw.r = false ∧
    lambda_handler calmDraw widgetEvent = Except.ok
      { statusCode := 201, body := actualWidgetBody } ∧
    actualWidgetBody ≠ claimedWidgetBody ∧
    lambda_handler calmDraw widgetEvent ≠ Except.ok
      { statusCode := 201, body := claimedWidgetBody } := by
  refine ⟨by decide, by rfl, by decide, fun h => ?_⟩
  rw [show lambda_handler calmDraw widgetEvent = Except.ok
    { statusCode := 201, body := actualWidgetBody } from rfl] at h
  have hbody : actualWidgetBody = claimedWidgetBody := by
    injection h with h1
    exact congrArg Response.body h1
  exact absurd hbody (by decide)

/-- C8 amended: for the spec's concrete event
`{requestContext: {http: {method: "POST"}}, body: "{\"name\":\"widget\"}"}`,
when fault injection does not trigger, the output is statusCode 201 with
body `{"message": "POST request successful", "received": {"name": "widget"}}`
(the spec's string with `json.dumps`'s default ", " and ": " separators). -/
theorem widget_scenario_output (d : Draws)
    (hf : should_fail_request d.r = false) :
    lambda_handler d widgetEvent = Except.ok
      { statusCode := 201, body := actualWidgetBody } :=
  handler_post_ok d widgetEvent (Json.obj [("name", Json.str "widget")]) hf (by rfl) (by rfl)

/-- Witness for the amended C8: the non-triggering draw. -/
theorem widget_scenario_output_witness :
    should_fail_request calmDraw.r = false ∧
    lambda_handler calmDraw widgetEvent = Except.ok
      { statusCode := 201, body := actualWidgetBody } :=
  ⟨by decide, widget_scenario_output calmDraw (by decide)⟩

/-- A second non-triggering draw, distinct from `calmDraw` in both fields. -/
def calmDraw2 : Draws := ⟨mkRat 3 4, 1⟩

/-- C9: two invocations on the identical GET request, neither triggering
fault injection, return byte-identical responses whatever the two random
states were: the router is a pure function of its input. -/
theorem get_idempotent_across_invocations (d1 d2 : Draws) (e : List (String × Json))
    (h1 : should_fail_request d1.r = false)
    (h2 : should_fail_request d2.r = false)
    (hm : getHttpMethod e = Except.ok (Json.str "GET")) :
    lambda_handler d1 e = lambda_handler d2 e := by
  rw [handler_get d1 e h1 hm, handler_get d2 e h2 hm]

/-- Witness for C9: two different non-triggering random states on the same
GET event. -/
theorem get_idempotent_across_invocations_witness :
    should_fail_request calmDraw.r = false ∧
    should_fail_request calmDraw2.r = false ∧
    getHttpMethod getEvent = Except.ok (Json.str "GET") ∧
    lambda_handler calmDraw getEvent = lambda_handler calmDraw2 getEvent :=
  ⟨by decide, by decide, by rfl,
    get_idempotent_across_invocations calmDraw calmDraw2 getEvent
      (by decide) (by decide) (by rfl)⟩

/-- C10: the absent-body default only covers a missing "body" key: a POST
event carrying "body" with a non-string value (such as `None`) is fed to
`json.loads`, which raises `TypeError` — no empty-object default, no
success response. -/
theorem post_non_string_body_raises (d : Draws) (e : List (String × Json)) (v : Json)
    (hf : should_fail_request d.r = false)
    (hm : getHttpMethod e = Except.ok (Json.str "POST"))
    (hb : lookupKey e "body" = some v)
    (hv : v.isString = false) :
    lambda_handler d e = Except.error PyErr.typeError := by
  apply handler_post_err d e PyErr.typeError hf hm
  have hd : dictGet e "body" (Json.str "\x7b\x7d") = v := by
    unfold dictGet
    rw [hb]
    rfl
  rw [hd]
  exact loadsValue_typeError v hv

/-- Witness for C10: a POST event with `"body": null`. -/
theorem post_non_string_body_raises_witness :
    should_fail_request calmDraw.r = false ∧
    getHttpMethod postEventNullBody = Except.ok (Json.str "POST") ∧
    lookupKey postEventNullBody "body" = some Json.null ∧
    Json.null.isString = false ∧
    lambda_handler calmDraw postEventNullBody = Except.error PyErr.typeError :=
  ⟨by decide, by rfl, by rfl, by rfl,
    post_non_string_body_raises calmDraw postEventNullBody Json.null
      (by decide) (by rfl) (by rfl) (by rfl)⟩
